import Mathlib

/-!
Verification of the poker-planning peer session protocol and replicated
state manager, shallowly embedded from `src/composables/useGame.ts` and
`src/composables/usePeer.ts`.

Conventions of the embedding:
* JS timestamps (`Date.now()`) are `Int` values threaded explicitly as a
  `now` parameter.
* `null` becomes `none`; a possibly-absent payload field becomes an outer
  `Option` (so `Option (Option Int)` distinguishes "absent" from "null").
* JS truthiness tests on a vote string (`p.vote`) and on a numeric
  timestamp (`state.countdownStartTime`) are embedded as `voteTruthy` and
  `optTruthy` (empty string and the number 0 are falsy in JS).
* Network sends are modelled as an explicit list of `Effect` values
  returned alongside the next state, in the order the source emits them.
-/

namespace PokerPlanning

/-- `GameStatus` from `types.ts`: `'voting' | 'revealed'`. -/
inductive GameStatus where
  | voting
  | revealed
deriving DecidableEq

/-- Connection status classification: `'online' | 'away' | 'offline'`. -/
inductive PeerStatus where
  | online
  | away
  | offline
deriving DecidableEq

/-- `Player` from `types.ts`: transport id (`id`), stable `userId`, display
name, optional vote (null = not voted), facilitator flag `isHost`, and a
derived connection status. -/
structure Player where
  id : String
  userId : String
  name : String
  vote : Option String
  isHost : Bool
  connectionStatus : PeerStatus
deriving DecidableEq

/-- `GameState` from `types.ts`: roster, phase, auto-reveal settings and
the countdown start timestamp (null when no countdown runs). -/
structure GameState where
  players : List Player
  status : GameStatus
  autoReveal : Bool
  autoRevealDuration : Int
  countdownStartTime : Option Int
deriving DecidableEq

/-- The `UPDATE_STATE` payload. `broadcastState` always sends all five
fields; `handleUpdateState` tolerates absent settings fields (checked with
`!== undefined` in the source), hence the outer `Option` on the last
three. -/
structure StatePayload where
  players : List Player
  status : GameStatus
  autoReveal : Option Bool
  autoRevealDuration : Option Int
  countdownStartTime : Option (Option Int)
deriving DecidableEq

/-- Network effects emitted by the handlers, in source order. -/
inductive Effect where
  | broadcastUpdateState (p : StatePayload)
  | sendWelcome (target : String) (players : List Player) (status : GameStatus)
  | sendPacket (t : String)
  | sendHostTransfer (newHostId : String)
  | sendUpdateSettings (autoReveal : Bool) (autoRevealDuration : Int)
deriving DecidableEq

/-- JS truthiness of `p.vote` (a string or null): null and `""` are falsy. -/
def voteTruthy : Option String → Bool
  | none => false
  | some v => v != ""

/-- JS truthiness of `state.countdownStartTime` (a number or null): null
and `0` are falsy. -/
def optTruthy : Option Int → Bool
  | none => false
  | some t => t != 0

/-- The full-snapshot payload assembled by `broadcastState` /
`broadcastStateGlobal`: all five state fields, present. -/
def snapshotPayload (s : GameState) : StatePayload :=
  ⟨s.players, s.status, some s.autoReveal, some s.autoRevealDuration,
    some s.countdownStartTime⟩

/-- `broadcastState()`: broadcast the full snapshot to all open channels. -/
def broadcastEff (s : GameState) : Effect :=
  .broadcastUpdateState (snapshotPayload s)

/-- Number of roster entries carrying a given stable `userId`. -/
def countUser (ps : List Player) (u : String) : Nat :=
  (ps.filter (fun p => p.userId == u)).length

/-- Number of roster entries currently flagged as facilitator. -/
def countHosts (ps : List Player) : Nat :=
  (ps.filter (fun p => p.isHost)).length

/-- `isAdmin` computed ref: the caller's own roster entry (looked up by
stable `myUserId`) has `isHost`, defaulting to `false` when absent. -/
def isAdminOf (s : GameState) (myUserId : String) : Bool :=
  ((s.players.find? (fun p => p.userId == myUserId)).map (fun p => p.isHost)).getD false

/-- `handleJoin(id, name, userId)` (relay side): append a fresh
non-facilitator Participant only when no roster entry with this `userId`
exists; then broadcast and unicast a WELCOME (carrying players and status
only) to the joiner. A duplicate join is a complete no-op. -/
def handleJoin (s : GameState) (id name userId : String) : GameState × List Effect :=
  if (s.players.find? (fun p => p.userId == userId)).isSome then (s, [])
  else
    let s1 : GameState :=
      { s with players := s.players ++ [⟨id, userId, name, none, false, .online⟩] }
    (s1, [broadcastEff s1, .sendWelcome id s1.players s1.status])

/-- The in-place mutation of `handleRejoin`'s `existingPlayer`: the first
roster entry with the given `userId` gets the new transport `id` and is
marked online; everything else is untouched. -/
def rejoinUpdate (id userId : String) : List Player → List Player
  | [] => []
  | p :: ps =>
      if p.userId == userId then
        { p with id := id, connectionStatus := .online } :: ps
      else
        p :: rejoinUpdate id userId ps

/-- `handleRejoin(id, userId, name)` (relay side): locate the Participant
by stable `userId` (never by transport id); update its transport id and
mark it online; append a fresh Participant only when none exists. Then
broadcast and unicast WELCOME to the rejoiner. -/
def handleRejoin (s : GameState) (id userId name : String) : GameState × List Effect :=
  let s1 : GameState :=
    if (s.players.find? (fun p => p.userId == userId)).isSome then
      { s with players := rejoinUpdate id userId s.players }
    else
      { s with players := s.players ++ [⟨id, userId, name, none, false, .online⟩] }
  (s1, [broadcastEff s1, .sendWelcome id s1.players s1.status])

/-- `checkCountdownTrigger()`: when auto-reveal is enabled, start the
countdown (at `now`) if exactly one Participant is unvoted and no countdown
is running; clear it once every Participant has voted. -/
def checkCountdownTrigger (s : GameState) (now : Int) : GameState :=
  if !s.autoReveal then s
  else
    let totalPlayers := s.players.length
    let votedPlayers := (s.players.filter (fun p => voteTruthy p.vote)).length
    let remaining := totalPlayers - votedPlayers
    if remaining == 1 && !(optTruthy s.countdownStartTime) then
      { s with countdownStartTime := some now }
    else if remaining == 0 then
      { s with countdownStartTime := none }
    else s

/-- The in-place mutation of `handleVote`'s found player: the first roster
entry with the given transport `id` receives the vote. -/
def setVoteFirst (id v : String) : List Player → List Player
  | [] => []
  | p :: ps =>
      if p.id == id then { p with vote := some v } :: ps
      else p :: setVoteFirst id v ps

/-- `handleVote(id, vote)` (relay side): look the sender up by transport
id; when found, record the vote, evaluate the countdown trigger, and
broadcast; when the sender is unknown, do nothing at all. -/
def handleVote (s : GameState) (id v : String) (now : Int) : GameState × List Effect :=
  if (s.players.find? (fun p => p.id == id)).isSome then
    let s1 : GameState := { s with players := setVoteFirst id v s.players }
    let s2 := checkCountdownTrigger s1 now
    (s2, [broadcastEff s2])
  else (s, [])

/-- The local `reveal()` action: guarded on `isAdmin`; set status to
revealed and clear the countdown; the relay broadcasts and also sends a
REVEAL packet, a non-relay facilitator only sends the REVEAL packet. A
non-facilitator caller changes nothing and sends nothing. -/
def revealAction (s : GameState) (myUserId : String) (isServer : Bool) :
    GameState × List Effect :=
  if isAdminOf s myUserId then
    let s1 : GameState := { s with status := .revealed, countdownStartTime := none }
    if isServer then (s1, [broadcastEff s1, .sendPacket "REVEAL"])
    else (s1, [.sendPacket "REVEAL"])
  else (s, [])

/-- The local `hide()` action: guarded on `isAdmin`; set status back to
voting (the countdown field is not touched by this action); send/broadcast
as for reveal. -/
def hideAction (s : GameState) (myUserId : String) (isServer : Bool) :
    GameState × List Effect :=
  if isAdminOf s myUserId then
    let s1 : GameState := { s with status := .voting }
    if isServer then (s1, [broadcastEff s1, .sendPacket "HIDE"])
    else (s1, [.sendPacket "HIDE"])
  else (s, [])

/-- The local `reset()` action: guarded on `isAdmin`; back to voting, clear
the countdown, clear every vote; send/broadcast as for reveal. -/
def resetAction (s : GameState) (myUserId : String) (isServer : Bool) :
    GameState × List Effect :=
  if isAdminOf s myUserId then
    let s1 : GameState :=
      { s with status := .voting, countdownStartTime := none,
               players := s.players.map (fun p => { p with vote := none }) }
    if isServer then (s1, [broadcastEff s1, .sendPacket "RESET"])
    else (s1, [.sendPacket "RESET"])
  else (s, [])

/-- The local `updateSettings(autoReveal, duration)` action: guarded on
`isAdmin`; store the settings, clear the countdown, send the
UPDATE_SETTINGS packet, then (relay only) broadcast. -/
def updateSettingsAction (s : GameState) (myUserId : String) (isServer : Bool)
    (autoReveal : Bool) (duration : Int) : GameState × List Effect :=
  if isAdminOf s myUserId then
    let s1 : GameState :=
      { s with autoReveal := autoReveal, autoRevealDuration := duration,
               countdownStartTime := none }
    if isServer then
      (s1, [.sendUpdateSettings autoReveal duration, broadcastEff s1])
    else
      (s1, [.sendUpdateSettings autoReveal duration])
  else (s, [])

/-- The `case 'REVEAL'` branch of `onDataReceived`: unconditionally set
status to revealed; the relay re-broadcasts. The sender id is received but
never consulted. -/
def recvReveal (s : GameState) (senderId : String) (isServer : Bool) :
    GameState × List Effect :=
  let _ := senderId
  let s1 : GameState := { s with status := .revealed }
  (s1, if isServer then [broadcastEff s1] else [])

/-- The `case 'HIDE'` branch of `onDataReceived`: unconditionally set
status to voting; the relay re-broadcasts. The sender id is never
consulted. -/
def recvHide (s : GameState) (senderId : String) (isServer : Bool) :
    GameState × List Effect :=
  let _ := senderId
  let s1 : GameState := { s with status := .voting }
  (s1, if isServer then [broadcastEff s1] else [])

/-- The `case 'RESET'` branch of `onDataReceived`: unconditionally set
status to voting and clear every vote; the relay re-broadcasts. The sender
id is never consulted. -/
def recvReset (s : GameState) (senderId : String) (isServer : Bool) :
    GameState × List Effect :=
  let _ := senderId
  let s1 : GameState :=
    { s with status := .voting,
             players := s.players.map (fun p => { p with vote := none }) }
  (s1, if isServer then [broadcastEff s1] else [])

/-- `transferHostTo(targetUserId)`: only the current facilitator may
transfer; when the target is present in the roster, every Participant's
`isHost` is recomputed as `userId == targetUserId`, and a HOST_TRANSFER
packet keyed by the target's current transport id is sent (relay: after a
broadcast). Persistence side effects are outside the embedding. -/
def transferHostTo (s : GameState) (myUserId : String) (isServer : Bool)
    (targetUserId : String) : GameState × List Effect :=
  if !(isAdminOf s myUserId) then (s, [])
  else
    match s.players.find? (fun p => p.userId == targetUserId) with
    | none => (s, [])
    | some targetPlayer =>
        let s1 : GameState :=
          { s with players :=
              s.players.map (fun p => { p with isHost := p.userId == targetUserId }) }
        if isServer then
          (s1, [broadcastEff s1, .sendHostTransfer targetPlayer.id])
        else
          (s1, [.sendHostTransfer targetPlayer.id])

/-- `transferHost()`: pick the first non-facilitator roster entry and
transfer to them; a no-op when every entry is a facilitator. -/
def transferHost (s : GameState) (myUserId : String) (isServer : Bool) :
    GameState × List Effect :=
  match s.players.find? (fun p => !p.isHost) with
  | some nextHost => transferHostTo s myUserId isServer nextHost.userId
  | none => (s, [])

/-- The `conn.on('close')` handler installed by
`setupPlayerDisconnectDetection`, for a closed channel to transport id
`peer`: when the disconnected Participant was the facilitator, remove them
and run `transferHost()` (whose `transferHostTo` is still guarded by the
local caller's own `isAdmin`); otherwise remove them and broadcast. -/
def onConnClose (s : GameState) (myUserId : String) (isServer : Bool)
    (peer : String) : GameState × List Effect :=
  match s.players.find? (fun p => p.id == peer) with
  | some disconnectedPlayer =>
      if disconnectedPlayer.isHost then
        let s1 : GameState := { s with players := s.players.filter (fun p => p.id != peer) }
        transferHost s1 myUserId isServer
      else
        let s1 : GameState := { s with players := s.players.filter (fun p => p.id != peer) }
        (s1, [broadcastEff s1])
  | none => (s, [])

/-- `revealGlobal()`: the authoritative reveal transition used by the
auto-reveal tick: status revealed, countdown cleared, full snapshot
broadcast, then a REVEAL packet. -/
def revealGlobal (s : GameState) : GameState × List Effect :=
  let s1 : GameState := { s with status := .revealed, countdownStartTime := none }
  (s1, [broadcastEff s1, .sendPacket "REVEAL"])

/-- The 1-second `setInterval` body: on the relay, when auto-reveal is on,
a countdown is running (JS-truthy timestamp) and status is voting, compare
the elapsed time with `autoRevealDuration` and reveal on expiry. The
source computes `(now - t) / 1000 >= duration`; for the integral duration
this is exactly the integer inequality `now - t >= 1000 * duration` used
here. -/
def autoRevealTick (s : GameState) (isServer : Bool) (now : Int) :
    GameState × List Effect :=
  if isServer && s.autoReveal && optTruthy s.countdownStartTime
      && (s.status == GameStatus.voting) then
    if now - (s.countdownStartTime.getD 0) ≥ 1000 * s.autoRevealDuration then
      revealGlobal s
    else (s, [])
  else (s, [])

/-- `handleWelcome(payload)`: a WELCOME overwrites the local players and
status from the payload; the settings fields and the countdown are not
part of a WELCOME and keep their local values. -/
def handleWelcome (s : GameState) (players : List Player) (status : GameStatus) :
    GameState :=
  { s with players := players, status := status }

/-- `handleUpdateState(payload)`: players and status are always
overwritten; each settings field is overwritten exactly when present in
the payload (`!== undefined`). -/
def handleUpdateState (s : GameState) (p : StatePayload) : GameState :=
  { players := p.players
    status := p.status
    autoReveal := p.autoReveal.getD s.autoReveal
    autoRevealDuration := p.autoRevealDuration.getD s.autoRevealDuration
    countdownStartTime := p.countdownStartTime.getD s.countdownStartTime }

/-- A `peerHealth` map entry from `usePeer.ts`: last-seen timestamp and a
cached status (the cached status is ignored by `getPeerStatus`, which
re-derives on read). -/
structure PeerHealth where
  lastSeen : Int
  status : PeerStatus
deriving DecidableEq

/-- `Map.set` semantics for the `peerHealth` map, modelled as an
association list: replace the existing entry for the key or append one. -/
def setEntry : List (String × PeerHealth) → String → PeerHealth →
    List (String × PeerHealth)
  | [], k, v => [(k, v)]
  | (k0, v0) :: rest, k, v =>
      if k0 == k then (k, v) :: rest else (k0, v0) :: setEntry rest k v

/-- `updatePeerHealth(peerId, status)`: record `lastSeen = Date.now()` and
the given status for this peer. -/
def updatePeerHealth (health : List (String × PeerHealth)) (peerId : String)
    (now : Int) (status : PeerStatus) : List (String × PeerHealth) :=
  setEntry health peerId ⟨now, status⟩

/-- `getPeerStatus(peerId)`: an unknown peer is offline; otherwise derive
from the elapsed milliseconds since `lastSeen`: offline beyond 30000,
away beyond 15000, online otherwise. -/
def getPeerStatus (health : List (String × PeerHealth)) (peerId : String)
    (now : Int) : PeerStatus :=
  match health.lookup peerId with
  | none => .offline
  | some h =>
      let timeSinceLastSeen := now - h.lastSeen
      if timeSinceLastSeen > 30000 then .offline
      else if timeSinceLastSeen > 15000 then .away
      else .online

/-- A JOIN or REJOIN message, as consumed by the relay's dispatcher. -/
inductive JoinMsg where
  | join (id name userId : String)
  | rejoin (id userId name : String)
deriving DecidableEq

/-- The stable identity a JOIN/REJOIN message carries. -/
def msgUser : JoinMsg → String
  | .join _ _ u => u
  | .rejoin _ u _ => u

/-- State reached after dispatching one JOIN/REJOIN message on the relay. -/
def applyJoinMsg (s : GameState) : JoinMsg → GameState
  | .join id name u => (handleJoin s id name u).1
  | .rejoin id u name => (handleRejoin s id u name).1

/-- State reached after the relay dispatches a whole sequence of
JOIN/REJOIN messages in order. -/
def processJoinMsgs (s : GameState) : List JoinMsg → GameState
  | [] => s
  | m :: ms => processJoinMsgs (applyJoinMsg s m) ms

/-! ### Helper lemmas -/

theorem lookup_setEntry (l : List (String × PeerHealth)) (k : String) (v : PeerHealth) :
    (setEntry l k v).lookup k = some v := by
  induction l with
  | nil => simp [setEntry, List.lookup]
  | cons hd tl ih =>
      obtain ⟨k0, v0⟩ := hd
      by_cases hk : k0 = k
      · simp [setEntry, hk, List.lookup]
      · have hk2 : (k0 == k) = false := by simp [hk]
        have hk3 : (k == k0) = false := by simp [Ne.symm hk]
        simp [setEntry, hk2, hk3, List.lookup, ih]

/-! ### Claim theorems -/

/-- C9: a VOTE whose sender transport id matches no Participant leaves the
relay's entire session state unchanged and broadcasts nothing. -/
theorem handleVote_unknown_sender_noop (s : GameState) (id v : String) (now : Int)
    (h : s.players.find? (fun p => p.id == id) = none) :
    handleVote s id v now = (s, []) := by
  simp [handleVote, h]

/-- Witness for C9: a roster holding only Alice, a VOTE from transport id
`"X"`: state and effects are untouched. -/
theorem handleVote_unknown_sender_noop_witness :
    handleVote ⟨[⟨"A", "ua", "Alice", none, true, .online⟩], .voting, true, 10, none⟩
        "X" "5" 0 =
      (⟨[⟨"A", "ua", "Alice", none, true, .online⟩], .voting, true, 10, none⟩, []) :=
  handleVote_unknown_sender_noop _ "X" "5" 0 (by decide)

/-- C10: a peer identity with no recorded liveness entry is classified
offline by `getPeerStatus`. -/
theorem getPeerStatus_unknown_offline (health : List (String × PeerHealth))
    (peerId : String) (now : Int) (h : health.lookup peerId = none) :
    getPeerStatus health peerId now = .offline := by
  simp [getPeerStatus, h]

/-- Witness for C10: the empty liveness map classifies any peer offline. -/
theorem getPeerStatus_unknown_offline_witness :
    getPeerStatus [] "p" 1000 = .offline :=
  getPeerStatus_unknown_offline [] "p" 1000 (by decide)

/-- Counterexample to C8 as stated: at an elapsed time of exactly 15000 ms
(15 seconds, which the claim classifies as away, not online, since it is
not less than 15 s) the code derives `online`. -/
theorem getPeerStatus_boundary_cx :
    getPeerStatus [("p", ⟨0, PeerStatus.online⟩)] "p" 15000 = .online ∧
    ¬ ((15000 : Int) - 0 < 15000) ∧ PeerStatus.online ≠ PeerStatus.away := by
  refine ⟨by decide, by decide, by decide⟩

/-- C8 (amended): with a recorded entry, the derived status is online when
the elapsed time since `lastSeen` is at most 15 s, away when it is more
than 15 s and at most 30 s, offline when it exceeds 30 s; and recording a
fresh reply (lastSeen = now) immediately derives online. -/
theorem getPeerStatus_classification (health : List (String × PeerHealth))
    (peerId : String) (now : Int) (h : PeerHealth)
    (hl : health.lookup peerId = some h) :
    (now - h.lastSeen ≤ 15000 → getPeerStatus health peerId now = .online) ∧
    (15000 < now - h.lastSeen → now - h.lastSeen ≤ 30000 →
      getPeerStatus health peerId now = .away) ∧
    (30000 < now - h.lastSeen → getPeerStatus health peerId now = .offline) ∧
    (∀ (hh : List (String × PeerHealth)) (p : String) (n : Int) (st : PeerStatus),
      getPeerStatus (updatePeerHealth hh p n st) p n = .online) := by
  refine ⟨?_, ?_, ?_, ?_⟩
  · intro h1
    have h2 : ¬ (now - h.lastSeen > 30000) := by omega
    have h3 : ¬ (now - h.lastSeen > 15000) := by omega
    simp [getPeerStatus, hl, h2, h3]
  · intro h1 h2
    have h3 : ¬ (now - h.lastSeen > 30000) := by omega
    simp [getPeerStatus, hl, h3, h1]
  · intro h1
    simp [getPeerStatus, hl, h1]
  · intro hh p n st
    simp [getPeerStatus, updatePeerHealth, lookup_setEntry]

/-- Witness for C8 (amended): exactly 20 s of silence derives away, and a
fresh reply derives online. -/
theorem getPeerStatus_classification_witness :
    getPeerStatus [("p", ⟨0, PeerStatus.online⟩)] "p" 20000 = .away ∧
    getPeerStatus (updatePeerHealth [] "q" 7 PeerStatus.online) "q" 7 = .online := by
  exact ⟨(getPeerStatus_classification _ "p" 20000 ⟨0, .online⟩ (by decide)).2.1
      (by decide) (by decide),
    (getPeerStatus_classification [("p", ⟨0, PeerStatus.online⟩)] "p" 20000 ⟨0, .online⟩
      (by decide)).2.2.2 [] "q" 7 .online⟩

/-- A local replica about to receive a WELCOME: it still carries a stale
countdown and stale settings. -/
def welcomeLocal : GameState := ⟨[], .voting, false, 10, some 7⟩

/-- The relay's canonical state at the moment it sends that WELCOME. -/
def welcomeCanon : GameState :=
  ⟨[⟨"A", "ua", "Alice", some "5", true, .online⟩], .revealed, true, 5, none⟩

/-- Counterexample to C7 as stated: receiving a WELCOME built from the
relay snapshot `welcomeCanon` leaves the local `countdownStartTime` and
`autoReveal` at their stale values, which differ from the snapshot's
fields — the replacement is not wholesale for WELCOME. -/
theorem handleWelcome_not_wholesale_cx :
    (handleWelcome welcomeLocal welcomeCanon.players welcomeCanon.status).countdownStartTime
        = some 7 ∧
    welcomeCanon.countdownStartTime = none ∧
    (handleWelcome welcomeLocal welcomeCanon.players welcomeCanon.status).autoReveal
        = false ∧
    welcomeCanon.autoReveal = true := by
  refine ⟨by decide, by decide, by decide, by decide⟩

/-- C7 (amended): an UPDATE_STATE whose payload carries all five fields
(as every relay broadcast does) replaces the local replica wholesale; a
WELCOME replaces only `players` and `status`, leaving `autoReveal`,
`autoRevealDuration` and `countdownStartTime` at their local values. -/
theorem snapshot_replacement :
    (∀ (s : GameState) (ps : List Player) (st : GameStatus) (a : Bool) (d : Int)
        (c : Option Int),
      handleUpdateState s ⟨ps, st, some a, some d, some c⟩ = ⟨ps, st, a, d, c⟩) ∧
    (∀ (s : GameState) (ps : List Player) (st : GameStatus),
      (handleWelcome s ps st).players = ps ∧
      (handleWelcome s ps st).status = st ∧
      (handleWelcome s ps st).autoReveal = s.autoReveal ∧
      (handleWelcome s ps st).autoRevealDuration = s.autoRevealDuration ∧
      (handleWelcome s ps st).countdownStartTime = s.countdownStartTime) := by
  constructor
  · intro s ps st a d c
    rfl
  · intro s ps st
    exact ⟨rfl, rfl, rfl, rfl, rfl⟩

/-- `setVoteFirst` rewrites one entry in place, never changing length. -/
theorem setVoteFirst_length (id v : String) (ps : List Player) :
    (setVoteFirst id v ps).length = ps.length := by
  induction ps with
  | nil => rfl
  | cons p ps ih =>
      by_cases h : (p.id == id) = true
      · simp [setVoteFirst, h]
      · simp [setVoteFirst, h, ih]

/-- A relay state in which the facilitator Alice calls `hide()` while a
countdown is running. -/
def hideEx : GameState :=
  ⟨[⟨"A", "ua", "Alice", some "5", true, .online⟩,
    ⟨"B", "ub", "Bob", none, false, .online⟩], .revealed, true, 10, some 5⟩

/-- Counterexample to C2 as stated: `hide()` (by the facilitator, on the
relay) does not set `countdownStartTime` to null — the running countdown
survives the hide untouched. -/
theorem hide_keeps_countdown_cx :
    isAdminOf hideEx "ua" = true ∧
    (hideAction hideEx "ua" true).1.countdownStartTime = some 5 ∧
    (hideAction hideEx "ua" true).1.countdownStartTime ≠ none := by
  refine ⟨by decide, by decide, by decide⟩

/-- C2 (amended): reveal, reset and settings-change (by the facilitator)
set `countdownStartTime` to null, while hide leaves it unchanged; on the
relay's vote handler, the vote that leaves every Participant voted clears
the countdown, and a vote that leaves exactly one Participant unvoted
starts it (when `autoReveal` is on and no countdown is running —
regardless of `status`, which the trigger never consults). -/
theorem countdown_clearing :
    (∀ (s : GameState) (u : String) (srv : Bool), isAdminOf s u = true →
      (revealAction s u srv).1.countdownStartTime = none ∧
      (resetAction s u srv).1.countdownStartTime = none ∧
      (∀ (ar : Bool) (d : Int),
        (updateSettingsAction s u srv ar d).1.countdownStartTime = none)) ∧
    (∀ (s : GameState) (u : String) (srv : Bool),
      (hideAction s u srv).1.countdownStartTime = s.countdownStartTime) ∧
    (∀ (s : GameState) (id v : String) (now : Int),
      s.autoReveal = true →
      (s.players.find? (fun p => p.id == id)).isSome = true →
      ((setVoteFirst id v s.players).filter (fun p => voteTruthy p.vote)).length
          = s.players.length →
      (handleVote s id v now).1.countdownStartTime = none) ∧
    (∀ (s : GameState) (id v : String) (now : Int),
      s.autoReveal = true →
      (s.players.find? (fun p => p.id == id)).isSome = true →
      s.players.length -
          ((setVoteFirst id v s.players).filter (fun p => voteTruthy p.vote)).length = 1 →
      optTruthy s.countdownStartTime = false →
      (handleVote s id v now).1.countdownStartTime = some now) := by
  refine ⟨?_, ?_, ?_, ?_⟩
  · intro s u srv h
    refine ⟨?_, ?_, fun ar d => ?_⟩ <;> cases srv <;>
      simp [revealAction, resetAction, updateSettingsAction, h]
  · intro s u srv
    by_cases h : isAdminOf s u = true <;> cases srv <;>
      simp [hideAction, h]
  · intro s id v now hAR hfind hall
    simp [handleVote, hfind, checkCountdownTrigger, hAR, setVoteFirst_length, hall]
  · intro s id v now hAR hfind hrem hcst
    simp [handleVote, hfind, checkCountdownTrigger, hAR, setVoteFirst_length, hrem, hcst]

/-- Witness for C2 (amended): in `hideEx` the facilitator's reveal clears
the countdown, while hide leaves `some 5` in place; Bob's vote (the last
unvoted Participant) clears the countdown. -/
theorem countdown_clearing_witness :
    (revealAction hideEx "ua" true).1.countdownStartTime = none ∧
    (hideAction hideEx "ua" true).1.countdownStartTime = some 5 ∧
    (handleVote hideEx "B" "8" 99).1.countdownStartTime = none := by
  refine ⟨(countdown_clearing.1 hideEx "ua" true (by decide)).1,
    countdown_clearing.2.1 hideEx "ua" true,
    countdown_clearing.2.2.1 hideEx "B" "8" 99 (by decide) (by decide) (by decide)⟩

/-- A relay state in which Alice is the facilitator and Mallory (transport
id `"M"`) is an ordinary participant. -/
def recvEx : GameState :=
  ⟨[⟨"A", "ua", "Alice", none, true, .online⟩,
    ⟨"M", "um", "Mallory", none, false, .online⟩], .voting, true, 10, none⟩

/-- Counterexample to C3 as stated: the relay applies an inbound REVEAL
whose sender is the non-facilitator Mallory — the status flips to revealed
and a broadcast goes out, with no facilitator check on the sender. -/
theorem recvReveal_unauthorized_cx :
    ((recvEx.players.find? (fun p => p.id == "M")).map (fun p => p.isHost))
        = some false ∧
    (recvReveal recvEx "M" true).1.status = .revealed ∧
    (recvReveal recvEx "M" true).2 ≠ [] := by
  refine ⟨by decide, by decide, by decide⟩

/-- C3 (amended): the local reveal/hide/reset/settings actions are no-ops
— state unchanged, nothing sent — whenever the caller is not the
facilitator (the guard precedes every network effect); but the relay
applies an inbound REVEAL, HIDE or RESET from any sender, never consulting
the sender's facilitator status. -/
theorem facilitator_guard :
    (∀ (s : GameState) (u : String) (srv : Bool), isAdminOf s u = false →
      revealAction s u srv = (s, []) ∧ hideAction s u srv = (s, []) ∧
      resetAction s u srv = (s, []) ∧
      ∀ (ar : Bool) (d : Int), updateSettingsAction s u srv ar d = (s, [])) ∧
    (∀ (s : GameState) (sender : String) (srv : Bool),
      (recvReveal s sender srv).1.status = .revealed ∧
      (recvHide s sender srv).1.status = .voting ∧
      (recvReset s sender srv).1.status = .voting) := by
  constructor
  · intro s u srv h
    refine ⟨?_, ?_, ?_, fun ar d => ?_⟩ <;>
      simp [revealAction, hideAction, resetAction, updateSettingsAction, h]
  · intro s sender srv
    exact ⟨rfl, rfl, rfl⟩

/-- Witness for C3 (amended): Mallory (not the facilitator) calling the
local reveal changes nothing and sends nothing. -/
theorem facilitator_guard_witness :
    revealAction recvEx "um" false = (recvEx, []) :=
  (facilitator_guard.1 recvEx "um" false (by decide)).1

/-- Re-flagging every entry with `isHost := userId == u` leaves exactly as
many facilitators as there are entries carrying `u`. -/
theorem countHosts_map_transfer (ps : List Player) (u : String) :
    countHosts (ps.map (fun p => { p with isHost := p.userId == u })) = countUser ps u := by
  induction ps with
  | nil => rfl
  | cons p ps ih =>
      by_cases h : (p.userId == u) = true <;>
        simp [countHosts, countUser, List.filter_cons, h] at * <;>
        simpa [countHosts, countUser] using ih

/-- A roster entry carrying the sought `userId` makes `find?` succeed. -/
theorem find?_userId_isSome_iff (ps : List Player) (u : String) :
    (ps.find? (fun p => p.userId == u)).isSome = true ↔ 0 < countUser ps u := by
  rw [List.find?_isSome]
  rw [countUser, ← List.countP_eq_length_filter, List.countP_pos_iff]

/-- C4: when the caller is the current facilitator and the roster carries
exactly one entry with the target's `userId`, `transferHostTo` results in
every Participant's `isHost` equal to `userId == targetUserId` — so the
target is the unique facilitator. -/
theorem transferHostTo_unique_host (s : GameState) (callerU targetU : String)
    (srv : Bool) (hAdmin : isAdminOf s callerU = true)
    (hcount : countUser s.players targetU = 1) :
    (∀ p ∈ (transferHostTo s callerU srv targetU).1.players,
      p.isHost = (p.userId == targetU)) ∧
    countHosts (transferHostTo s callerU srv targetU).1.players = 1 := by
  have hfind : (s.players.find? (fun p => p.userId == targetU)).isSome = true := by
    rw [find?_userId_isSome_iff, hcount]
    exact Nat.zero_lt_one
  rw [Option.isSome_iff_exists] at hfind
  obtain ⟨tp, htp⟩ := hfind
  have hres : (transferHostTo s callerU srv targetU).1.players =
      s.players.map (fun p => { p with isHost := p.userId == targetU }) := by
    cases srv <;> simp [transferHostTo, hAdmin, htp]
  constructor
  · intro p hp
    rw [hres] at hp
    rw [List.mem_map] at hp
    obtain ⟨q, _, rfl⟩ := hp
    rfl
  · rw [hres, countHosts_map_transfer, hcount]

/-- Witness for C4: Alice (facilitator) transfers to Bob; afterwards
exactly one Participant is facilitator. -/
theorem transferHostTo_unique_host_witness :
    countHosts (transferHostTo recvEx "ua" true "um").1.players = 1 :=
  (transferHostTo_unique_host recvEx "ua" "um" true (by decide) (by decide)).2

/-- C6: on the relay, with auto-reveal on, status voting, a running
countdown started at `t`, and at least `autoRevealDuration` seconds
elapsed, the 1-second tick performs the authoritative reveal transition:
status revealed, countdown cleared, full snapshot broadcast (followed by
the REVEAL packet), exactly as `revealGlobal`. The `t ≠ 0` hypothesis
mirrors the source's JS truthiness test on the timestamp; `Date.now()`
values are never 0. -/
theorem autoRevealTick_fires (s : GameState) (now t : Int)
    (hAR : s.autoReveal = true) (hst : s.status = .voting)
    (hcst : s.countdownStartTime = some t) (ht : t ≠ 0)
    (helapsed : now - t ≥ 1000 * s.autoRevealDuration) :
    (autoRevealTick s true now).1 =
      { s with status := .revealed, countdownStartTime := none } ∧
    (autoRevealTick s true now).2 =
      [broadcastEff { s with status := .revealed, countdownStartTime := none },
        Effect.sendPacket "REVEAL"] := by
  have htr : optTruthy s.countdownStartTime = true := by
    simp [optTruthy, hcst, ht]
  have hgd : s.countdownStartTime.getD 0 = t := by simp [hcst]
  constructor <;>
    simp [autoRevealTick, hAR, hst, htr, hgd, helapsed, revealGlobal]

/-- A two-participant relay state with a 2-second auto-reveal countdown
started at timestamp 1. -/
def tickEx : GameState :=
  ⟨[⟨"A", "ua", "Alice", some "5", true, .online⟩,
    ⟨"B", "ub", "Bob", none, false, .online⟩], .voting, true, 2, some 1⟩

/-- Witness for C6: at `now = 3000` (≥ 2 s after the countdown started)
the tick reveals. -/
theorem autoRevealTick_fires_witness :
    (autoRevealTick tickEx true 3000).1 =
      { tickEx with status := .revealed, countdownStartTime := none } :=
  (autoRevealTick_fires tickEx 3000 1 rfl rfl rfl (by decide) (by decide)).1

/-- The relay state just before its channel to Bob — the current
facilitator, but not the relay — closes. -/
def disconnectEx : GameState :=
  ⟨[⟨"R", "ur", "Relay", none, false, .online⟩,
    ⟨"B", "ub", "Bob", none, true, .online⟩], .voting, true, 10, none⟩

/-- C5 failing input: when the facilitator Bob's channel closes, the
relay removes him and calls `transferHost()`, but `transferHostTo`'s
`isAdmin` guard checks the *relay's own* roster entry — which is not the
facilitator — so the transfer silently aborts: the surviving roster has no
facilitator at all and nothing is broadcast, contradicting the claim (and
the handler's own stated intent of transferring the host). -/
theorem hostDisconnect_leaves_no_host :
    (onConnClose disconnectEx "ur" true "B").1.players ≠ [] ∧
    countHosts (onConnClose disconnectEx "ur" true "B").1.players = 0 ∧
    (onConnClose disconnectEx "ur" true "B").2 = [] := by
  refine ⟨by decide, by decide, by decide⟩

/-- Appending rosters adds their per-identity counts. -/
theorem countUser_append (ps qs : List Player) (u : String) :
    countUser (ps ++ qs) u = countUser ps u + countUser qs u := by
  simp [countUser, List.filter_append]

/-- `rejoinUpdate` rewrites the transport id and connection status of one
entry; it never changes any entry's `userId`, so per-identity counts are
untouched. -/
theorem countUser_rejoinUpdate (id u : String) (ps : List Player) (v : String) :
    countUser (rejoinUpdate id u ps) v = countUser ps v := by
  induction ps with
  | nil => rfl
  | cons p ps ih =>
      simp only [rejoinUpdate]
      by_cases h : (p.userId == u) = true
      · rw [if_pos h]
        by_cases hv : (p.userId == v) = true <;>
          simp [countUser, List.filter_cons, hv]
      · rw [if_neg h]
        by_cases hv : (p.userId == v) = true <;>
          simp [countUser, List.filter_cons, hv] <;>
          simpa [countUser] using ih

/-- `rejoinUpdate` never changes the roster's length. -/
theorem rejoinUpdate_length (id u : String) (ps : List Player) :
    (rejoinUpdate id u ps).length = ps.length := by
  induction ps with
  | nil => rfl
  | cons p ps ih =>
      by_cases h : (p.userId == u) = true <;> simp [rejoinUpdate, h, ih]

/-- When an entry with the sought `userId` exists, `rejoinUpdate` yields a
roster containing an entry with that `userId`, the fresh transport id, and
status marked online. -/
theorem rejoinUpdate_mem (id u : String) (ps : List Player)
    (h : 0 < countUser ps u) :
    ∃ p ∈ rejoinUpdate id u ps,
      p.userId = u ∧ p.id = id ∧ p.connectionStatus = PeerStatus.online := by
  induction ps with
  | nil => simp [countUser] at h
  | cons p ps ih =>
      by_cases hp : (p.userId == u) = true
      · refine ⟨{ p with id := id, connectionStatus := .online }, ?_, ?_, rfl, rfl⟩
        · simp [rejoinUpdate, hp]
        · simpa using hp
      · have hcount : 0 < countUser ps u := by
          simpa [countUser, List.filter_cons, hp] using h
        obtain ⟨q, hq, hprops⟩ := ih hcount
        exact ⟨q, by simp [rejoinUpdate, hp, hq], hprops⟩

/-- One relay-dispatched JOIN or REJOIN carrying identity `u` leaves the
roster with exactly one entry for `u`, whenever it previously had at most
one. -/
theorem applyJoinMsg_countUser (s : GameState) (m : JoinMsg) (u : String)
    (hm : msgUser m = u) (h : countUser s.players u ≤ 1) :
    countUser (applyJoinMsg s m).players u = 1 := by
  cases m with
  | join id name u' =>
      simp only [msgUser] at hm
      rw [← hm] at h ⊢
      by_cases hf : (s.players.find? (fun p => p.userId == u')).isSome = true
      · have hpos : 0 < countUser s.players u' := (find?_userId_isSome_iff _ _).mp hf
        have hnone : (applyJoinMsg s (.join id name u')).players = s.players := by
          simp [applyJoinMsg, handleJoin, hf]
        rw [hnone]
        omega
      · have hzero : countUser s.players u' = 0 := by
          by_contra hne
          exact hf ((find?_userId_isSome_iff _ _).mpr (Nat.pos_of_ne_zero hne))
        have hfn : (s.players.find? (fun p => p.userId == u')) = none :=
          Option.not_isSome_iff_eq_none.mp (by simpa using hf)
        have happ : (applyJoinMsg s (.join id name u')).players =
            s.players ++ [⟨id, u', name, none, false, .online⟩] := by
          simp [applyJoinMsg, handleJoin, hfn]
        rw [happ, countUser_append, hzero]
        simp [countUser]
  | rejoin id u' name =>
      simp only [msgUser] at hm
      rw [← hm] at h ⊢
      by_cases hf : (s.players.find? (fun p => p.userId == u')).isSome = true
      · have hpos : 0 < countUser s.players u' := (find?_userId_isSome_iff _ _).mp hf
        have hupd : (applyJoinMsg s (.rejoin id u' name)).players =
            rejoinUpdate id u' s.players := by
          simp [applyJoinMsg, handleRejoin, hf]
        rw [hupd, countUser_rejoinUpdate]
        omega
      · have hzero : countUser s.players u' = 0 := by
          by_contra hne
          exact hf ((find?_userId_isSome_iff _ _).mpr (Nat.pos_of_ne_zero hne))
        have hfn : (s.players.find? (fun p => p.userId == u')) = none :=
          Option.not_isSome_iff_eq_none.mp (by simpa using hf)
        have happ : (applyJoinMsg s (.rejoin id u' name)).players =
            s.players ++ [⟨id, u', name, none, false, .online⟩] := by
          simp [applyJoinMsg, handleRejoin, hfn]
        rw [happ, countUser_append, hzero]
        simp [countUser]

/-- Once the roster holds exactly one entry for `u`, any further sequence
of JOIN/REJOIN messages for `u` keeps it at exactly one. -/
theorem processJoinMsgs_countUser (u : String) (ms : List JoinMsg)
    (hall : ∀ m ∈ ms, msgUser m = u) (s : GameState)
    (h : countUser s.players u = 1) :
    countUser (processJoinMsgs s ms).players u = 1 := by
  induction ms generalizing s with
  | nil => exact h
  | cons m ms ih =>
      exact ih (fun m' hm' => hall m' (List.mem_cons_of_mem _ hm')) _
        (applyJoinMsg_countUser s m u (hall m (List.mem_cons_self _ _)) (le_of_eq h))

/-- C1: starting from a roster holding at most one entry for the stable
identity `u`, after the relay dispatches any nonempty sequence of
JOIN/REJOIN messages carrying `u`, the roster holds exactly one entry for
`u` — and this holds at every intermediate state, since each prefix is
itself such a sequence.  Moreover `handleJoin` appends a fresh
non-facilitator entry exactly when no entry with `u` exists, and
`handleRejoin` of an existing identity adds nothing: it rewrites the
located entry's transport id and marks it online. -/
theorem join_rejoin_unique_identity (s : GameState) (u : String)
    (ms : List JoinMsg) (hne : ms ≠ []) (hall : ∀ m ∈ ms, msgUser m = u)
    (h : countUser s.players u ≤ 1) :
    countUser (processJoinMsgs s ms).players u = 1 ∧
    (∀ id name, countUser s.players u = 0 →
      (handleJoin s id name u).1.players =
        s.players ++ [⟨id, u, name, none, false, PeerStatus.online⟩]) ∧
    (∀ id name, 0 < countUser s.players u →
      (handleRejoin s id u name).1.players.length = s.players.length ∧
      ∃ p ∈ (handleRejoin s id u name).1.players,
        p.userId = u ∧ p.id = id ∧ p.connectionStatus = PeerStatus.online) := by
  refine ⟨?_, ?_, ?_⟩
  · cases ms with
    | nil => exact absurd rfl hne
    | cons m ms =>
        exact processJoinMsgs_countUser u ms
          (fun m' hm' => hall m' (List.mem_cons_of_mem _ hm')) _
          (applyJoinMsg_countUser s m u (hall m (List.mem_cons_self _ _)) h)
  · intro id name hzero
    have hfn : (s.players.find? (fun p => p.userId == u)) = none := by
      apply Option.not_isSome_iff_eq_none.mp
      intro hs
      have := (find?_userId_isSome_iff _ _).mp hs
      omega
    simp [handleJoin, hfn]
  · intro id name hpos
    have hf : (s.players.find? (fun p => p.userId == u)).isSome = true :=
      (find?_userId_isSome_iff _ _).mpr hpos
    have hupd : (handleRejoin s id u name).1.players = rejoinUpdate id u s.players := by
      simp [handleRejoin, hf]
    rw [hupd]
    exact ⟨rejoinUpdate_length id u s.players, rejoinUpdate_mem id u s.players hpos⟩

/-- Witness for C1: from an empty roster, a JOIN followed by a reconnect
REJOIN under the same stable identity `"u1"` leaves exactly one roster
entry for `"u1"`. -/
theorem join_rejoin_unique_identity_witness :
    countUser (processJoinMsgs ⟨[], .voting, true, 10, none⟩
        [JoinMsg.join "A" "Alice" "u1", JoinMsg.rejoin "A2" "u1" "Alice"]).players
      "u1" = 1 :=
  (join_rejoin_unique_identity ⟨[], .voting, true, 10, none⟩ "u1"
    [JoinMsg.join "A" "Alice" "u1", JoinMsg.rejoin "A2" "u1" "Alice"]
    (by decide) (by decide) (by decide)).1

end PokerPlanning
